import Mathlib

/-!
Verification of the usage-event delivery pipeline
(`central-services/integration/main.py`, `central-services/integration/worker.py`,
`central-services/litellm/webhook-handler.py`).

Machine integers of the source are modelled as `Nat`/`Int`; 32-bit arithmetic
inside SHA-256 is explicit `% 2^32`.  Timestamps are unix seconds (`Int`);
Python `datetime` subtraction and `int(dt.timestamp())` become `Int`
subtraction and the field itself.  The monetary `spend` float is modelled as
`Rat` (no claim computes with it).  Fallible operations return `Except`.
-/

namespace Billing

/-! ### SHA-256 (model of `hashlib.sha256`, used for `api_key_hash` and HMAC) -/

def w32 : Nat := 4294967296

def rotr (k n : Nat) : Nat := ((n >>> k) ||| (n <<< (32 - k))) % w32

def bsig0 (x : Nat) : Nat := (rotr 2 x) ^^^ (rotr 13 x) ^^^ (rotr 22 x)

def bsig1 (x : Nat) : Nat := (rotr 6 x) ^^^ (rotr 11 x) ^^^ (rotr 25 x)

def ssig0 (x : Nat) : Nat := (rotr 7 x) ^^^ (rotr 18 x) ^^^ (x >>> 3)

def ssig1 (x : Nat) : Nat := (rotr 17 x) ^^^ (rotr 19 x) ^^^ (x >>> 10)

def sha256K : List Nat :=
  [1116352408, 1899447441, 3049323471, 3921009573, 961987163,
   1508970993, 2453635748, 2870763221, 3624381080, 310598401,
   607225278, 1426881987, 1925078388, 2162078206, 2614888103,
   3248222580, 3835390401, 4022224774, 264347078, 604807628,
   770255983, 1249150122, 1555081692, 1996064986, 2554220882,
   2821834349, 2952996808, 3210313671, 3336571891, 3584528711,
   113926993, 338241895, 666307205, 773529912, 1294757372,
   1396182291, 1695183700, 1986661051, 2177026350, 2456956037,
   2730485921, 2820302411, 3259730800, 3345764771, 3516065817,
   3600352804, 4094571909, 275423344, 430227734, 506948616,
   659060556, 883997877, 958139571, 1322822218, 1537002063,
   1747873779, 1955562222, 2024104815, 2227730452, 2361852424,
   2428436474, 2756734187, 3204031479, 3329325298]

def sha256H0 : List Nat :=
  [1779033703, 3144134277, 1013904242, 2773480762,
   1359893119, 2600822924, 528734635, 1541459225]

/-- Big-endian byte encoding of `n` on `k` bytes. -/
def beBytes (k : Nat) (n : Nat) : List Nat :=
  (List.range k).map (fun i => (n >>> (8 * (k - 1 - i))) % 256)

/-- SHA-256 padding: append 0x80, zero bytes to 56 mod 64, then the bit length on 8 bytes. -/
def padMessage (msg : List Nat) : List Nat :=
  msg ++ [0x80] ++ List.replicate ((119 - msg.length % 64) % 64) 0 ++ beBytes 8 (msg.length * 8)

/-- Group bytes into big-endian 32-bit words. -/
def toWords : List Nat → List Nat
  | b0 :: b1 :: b2 :: b3 :: rest => (((b0 * 256 + b1) * 256 + b2) * 256 + b3) :: toWords rest
  | _ => []

/-- Extend the 16 block words to the 64-word message schedule. -/
def buildSchedule (ws0 : Array Nat) : Array Nat :=
  (List.range 48).foldl
    (fun ws _ =>
      ws.push ((ssig1 (ws.getD (ws.size - 2) 0) + ws.getD (ws.size - 7) 0 +
                ssig0 (ws.getD (ws.size - 15) 0) + ws.getD (ws.size - 16) 0) % w32))
    ws0

structure Sha256State where
  a : Nat
  b : Nat
  c : Nat
  d : Nat
  e : Nat
  f : Nat
  g : Nat
  h : Nat

def sha256Round (k w : Nat) (s : Sha256State) : Sha256State :=
  let ch := (s.e &&& s.f) ^^^ ((s.e ^^^ 0xffffffff) &&& s.g)
  let maj := (s.a &&& s.b) ^^^ (s.a &&& s.c) ^^^ (s.b &&& s.c)
  let t1 := (s.h + bsig1 s.e + ch + k + w) % w32
  let t2 := (bsig0 s.a + maj) % w32
  ⟨(t1 + t2) % w32, s.a, s.b, s.c, (s.d + t1) % w32, s.e, s.f, s.g⟩

def compressBlock (hs : List Nat) (block : List Nat) : List Nat :=
  let ws := buildSchedule (toWords block).toArray
  let s0 : Sha256State :=
    ⟨hs.getD 0 0, hs.getD 1 0, hs.getD 2 0, hs.getD 3 0,
     hs.getD 4 0, hs.getD 5 0, hs.getD 6 0, hs.getD 7 0⟩
  let sf := (List.range 64).foldl
    (fun s i => sha256Round (sha256K.getD i 0) (ws.getD i 0) s) s0
  [(hs.getD 0 0 + sf.a) % w32, (hs.getD 1 0 + sf.b) % w32,
   (hs.getD 2 0 + sf.c) % w32, (hs.getD 3 0 + sf.d) % w32,
   (hs.getD 4 0 + sf.e) % w32, (hs.getD 5 0 + sf.f) % w32,
   (hs.getD 6 0 + sf.g) % w32, (hs.getD 7 0 + sf.h) % w32]

/-- Fold the compression function over successive 64-byte blocks; the fuel is
structural so that evaluation unfolds definitionally, and any fuel at least
the number of blocks gives the same result. -/
def sha256Fold : Nat → List Nat → List Nat → List Nat
  | _, hs, [] => hs
  | 0, hs, _ => hs
  | fuel + 1, hs, l => sha256Fold fuel (compressBlock hs (l.take 64)) (l.drop 64)

def sha256Bytes (msg : List Nat) : List Nat :=
  (((sha256Fold (padMessage msg).length sha256H0 (padMessage msg)).map (beBytes 4)).flatten)

def hexChar (n : Nat) : Char := if n < 10 then Char.ofNat (48 + n) else Char.ofNat (87 + n)

def hexByte (b : Nat) : List Char := [hexChar (b / 16), hexChar (b % 16)]

def hexOfBytes (bs : List Nat) : String := String.mk ((bs.map hexByte).flatten)

/-- Model of `hashlib.sha256(...).hexdigest()`. -/
def sha256HexBytes (msg : List Nat) : String := hexOfBytes (sha256Bytes msg)

/-- Model of `str.encode()`; code points, which agrees with UTF-8 on ASCII input. -/
def strBytes (s : String) : List Nat := s.data.map Char.toNat

/-- Model of `hmac.new(key, payload, hashlib.sha256).hexdigest()`. -/
def hmacSha256Hex (key msg : List Nat) : String :=
  let k0 := if key.length > 64 then sha256Bytes key else key
  let kp := k0 ++ List.replicate (64 - k0.length) 0
  hexOfBytes (sha256Bytes ((kp.map (fun b => b ^^^ 0x5c)) ++
    sha256Bytes ((kp.map (fun b => b ^^^ 0x36)) ++ msg)))

end Billing

namespace Billing

/-! ### Data model (`main.py` pydantic models and the `event_queue` schema) -/

/-- Property-bag values: the JSON scalars stored in `properties`. -/
inductive PropValue where
  | pstr : String → PropValue
  | pint : Int → PropValue
  | prat : Rat → PropValue
deriving DecidableEq, Repr

/-- Model of `LiteLLMUsageEvent` (`main.py`). -/
structure LiteLLMUsageEvent where
  id : String
  user : String
  model : String
  prompt_tokens : Int
  completion_tokens : Int
  total_tokens : Int
  spend : Rat
  startTime : Int
  endTime : Int
  api_key : Option String
  request_id : Option String
deriving DecidableEq, Repr

/-- Model of `CustomerMapping` (`main.py`). -/
structure CustomerMapping where
  litellm_customer_id : String
  lago_customer_id : String
  lago_organization_id : String
  billing_plan : String
  is_active : Bool
deriving DecidableEq, Repr

/-- Model of `LagoUsageEvent` (`main.py`). -/
structure LagoUsageEvent where
  transaction_id : String
  external_customer_id : String
  code : String
  timestamp : Int
  properties : List (String × PropValue)
deriving DecidableEq, Repr

/-- Model of a row of `event_queue`. -/
structure QueueEntry where
  id : Nat
  transaction_id : String
  external_customer_id : String
  event_data : LagoUsageEvent
  customer_mapping_id : String
  status : String
  retry_count : Int
  created_at : Int
  last_retry_at : Option Int
  processed_at : Option Int
  error_message : Option String
deriving DecidableEq, Repr

/-! ### Event Transformer (`convert_to_lago_event`, `main.py` lines 312-329) -/

def convert_to_lago_event (usage_event : LiteLLMUsageEvent)
    (customer_mapping : CustomerMapping) : LagoUsageEvent :=
  { transaction_id := "litellm_" ++ usage_event.id ++ "_" ++ toString usage_event.startTime
    external_customer_id := customer_mapping.lago_customer_id
    code := "ai_usage"
    timestamp := usage_event.startTime
    properties :=
      [("model", .pstr usage_event.model),
       ("input_tokens", .pint usage_event.prompt_tokens),
       ("output_tokens", .pint usage_event.completion_tokens),
       ("total_tokens", .pint usage_event.total_tokens),
       ("cost_usd", .prat usage_event.spend),
       ("duration_seconds", .pint (usage_event.endTime - usage_event.startTime)),
       ("litellm_customer_id", .pstr usage_event.user),
       ("request_id", .pstr (usage_event.request_id.getD usage_event.id)),
       ("api_key_hash",
        .pstr ((sha256HexBytes (strBytes (usage_event.api_key.getD ""))).take 16))] }

/-- Lookup of one key in a property bag (model of `dict` access). -/
def lookupProp (k : String) (props : List (String × PropValue)) : Option PropValue :=
  (props.find? (fun p => p.fst == k)).map Prod.snd

end Billing

namespace Billing

/-! ### Queue Store (`event_queue` operations of `main.py` and `worker.py`) -/

/-- Model of `DatabaseManager.update_event_status` (`main.py` lines 199-209)
applied to the matched row: sets status, `processed_at = NOW()`, the error
message, and always increments `retry_count`. -/
def update_event_status (e : QueueEntry) (status : String) (err : Option String)
    (now : Int) : QueueEntry :=
  { e with status := status, processed_at := some now, error_message := err,
           retry_count := e.retry_count + 1 }

/-- The same UPDATE over the whole table, matching on `id`. -/
def update_event_status_queue (q : List QueueEntry) (eid : Nat) (status : String)
    (err : Option String) (now : Int) : List QueueEntry :=
  q.map (fun e => if e.id = eid then update_event_status e status err now else e)

/-- Ordering used by `ORDER BY created_at ASC`. -/
def leCreated (a b : QueueEntry) : Prop := a.created_at ≤ b.created_at

instance : DecidableRel leCreated := fun a b => Int.decLe a.created_at b.created_at

instance : IsTotal QueueEntry leCreated := ⟨fun a b => Int.le_total a.created_at b.created_at⟩

instance : IsTrans QueueEntry leCreated := ⟨fun _ _ _ hab hbc => le_trans hab hbc⟩

/-- The WHERE clause of `DatabaseManager.get_pending_events` (`main.py` lines
211-225): `status = 'pending' OR (status = 'failed' AND retry_count < $1)`. -/
def pendingOrRetryable (max_retries : Int) (e : QueueEntry) : Bool :=
  e.status == "pending" || (e.status == "failed" && e.retry_count < max_retries)

/-- Model of `DatabaseManager.get_pending_events` (`main.py`): filter, order by
`created_at` ascending, bound by the limit. -/
def get_pending_events (max_retries : Int) (q : List QueueEntry) (limit : Nat) :
    List QueueEntry :=
  ((q.filter (pendingOrRetryable max_retries)).insertionSort leCreated).take limit

/-! ### Worker (`worker.py`) -/

/-- Model of `WorkerConfig` (`worker.py` lines 27-38). -/
structure WorkerConfig where
  max_retries : Int
  retry_delay : Int
  batch_size : Nat
  worker_concurrency : Nat
deriving DecidableEq, Repr

/-- Model of `EventProcessor.update_event_status` (`worker.py` lines 114-128):
`processed_at` is only set on completion, `last_retry_at = NOW()`, and
`retry_count` is always incremented. -/
def worker_update_event_status (e : QueueEntry) (status : String)
    (err : Option String) (now : Int) : QueueEntry :=
  { e with status := status,
           processed_at := if status == "completed" then some now else e.processed_at,
           last_retry_at := some now,
           error_message := err,
           retry_count := e.retry_count + 1 }

/-- Model of `EventProcessor.process_event` (`worker.py` lines 159-202) for one
delivery attempt whose outcome is given: success completes the entry; failure
with `retry_count >= max_retries` (the value read at selection time) marks it
`failed` terminally, otherwise back to `pending`. -/
def process_event (cfg : WorkerConfig) (now : Int) (outcome : Bool)
    (e : QueueEntry) : QueueEntry :=
  if outcome then worker_update_event_status e "completed" none now
  else if e.retry_count ≥ cfg.max_retries then
    worker_update_event_status e "failed"
      (some ("Max retries (" ++ toString cfg.max_retries ++ ") exceeded")) now
  else
    worker_update_event_status e "pending"
      (some ("Retry " ++ toString (e.retry_count + 1) ++ "/" ++ toString cfg.max_retries)) now

/-- Positional placeholders occurring in a SQL text: a digit directly after a
dollar sign. -/
def dollarParams : List Char → List Nat
  | [] => []
  | '$' :: c :: rest =>
      if c.isDigit then (c.toNat - 48) :: dollarParams rest else dollarParams (c :: rest)
  | _ :: rest => dollarParams rest

/-- Number of bind parameters a query expects: the highest `$n` occurring. -/
def numParams (q : String) : Nat := (dollarParams q.data).foldl max 0

/-- Single-quote character, written via its code point. -/
def sq : String := String.mk [Char.ofNat 39]

/-- Verbatim text of the SQL in `EventProcessor.get_pending_events`
(`worker.py` lines 98-107).  Note: only two positional placeholders occur, and
the interval literal is the un-interpolated text `%s seconds`. -/
def workerPendingQuery : String :=
  "SELECT id, transaction_id, external_customer_id, event_data, customer_mapping_id, retry_count, created_at FROM event_queue WHERE status = "
    ++ sq ++ "pending" ++ sq ++ " OR (status = " ++ sq ++ "failed" ++ sq
    ++ " AND retry_count < $1 AND last_retry_at < NOW() - INTERVAL "
    ++ sq ++ "%s seconds" ++ sq ++ ") ORDER BY created_at ASC LIMIT $2"

/-- Model of asyncpg statement execution: binding a list of arguments to a
query succeeds only when the argument count matches the query placeholders
(asyncpg validates this and raises otherwise). -/
def fetchBound (query : String) (args : List Int) (rows : List QueueEntry) :
    Except String (List QueueEntry) :=
  if args.length = numParams query then .ok rows
  else .error "argument count does not match query placeholders"

/-- The retry-eligibility condition the worker query spells out. -/
def workerDue (cfg : WorkerConfig) (now : Int) (e : QueueEntry) : Bool :=
  e.status == "pending" ||
    (e.status == "failed" && e.retry_count < cfg.max_retries &&
     e.last_retry_at.getD now < now - cfg.retry_delay)

/-- Model of `EventProcessor.get_pending_events` (`worker.py` lines 92-112):
the fetch binds `max_retries`, `retry_delay` and the limit — three arguments —
against `workerPendingQuery`. -/
def worker_get_pending_events (cfg : WorkerConfig) (now : Int)
    (q : List QueueEntry) (limit : Nat) : Except String (List QueueEntry) :=
  fetchBound workerPendingQuery [cfg.max_retries, cfg.retry_delay, (limit : Int)]
    (((q.filter (workerDue cfg now)).insertionSort leCreated).take limit)

/-- Model of `EventProcessor.process_batch`: each selected event is driven
through `process_event` with its attempt outcome and the row updated in the
table. -/
def process_batch (cfg : WorkerConfig) (now : Int) (outcomes : List Bool)
    (q : List QueueEntry) (events : List QueueEntry) : List QueueEntry :=
  (events.zip outcomes).foldl
    (fun acc p =>
      acc.map (fun x => if x.id = p.fst.id then process_event cfg now p.snd x else x)) q

/-- One iteration of `EventProcessor.run_processing_loop` (`worker.py` lines
236-262): fetch due events and process the batch; an exception in the cycle is
caught by the loop, which sleeps and leaves the table untouched. -/
def run_processing_cycle (cfg : WorkerConfig) (now : Int) (outcomes : List Bool)
    (q : List QueueEntry) : List QueueEntry :=
  match worker_get_pending_events cfg now q cfg.batch_size with
  | .error _ => q
  | .ok events => process_batch cfg now outcomes q events

end Billing

namespace Billing

/-! ### Billing Client (`LagoClient.send_usage_event`, `main.py` lines 263-292) -/

/-- Outcome of the single HTTP POST a delivery attempt makes. -/
inductive HttpOutcome where
  | resp : Nat → HttpOutcome
  | transportError : String → HttpOutcome
deriving DecidableEq, Repr

/-- Model of `LagoClient.send_usage_event`: the network is the stream of
outcomes the next requests would see; the call consumes exactly the first one.
A response with status 200 yields `true`; any other status logs and yields
`false`; an exception (transport error) is caught and yields `false`.  An
empty stream stands for a connection that cannot even be opened, which
surfaces as a caught exception. -/
def send_usage_event : List HttpOutcome → Bool × List HttpOutcome
  | [] => (false, [])
  | .resp s :: rest => (s == 200, rest)
  | .transportError _ :: rest => (false, rest)

/-! ### Webhook-handler variant (`webhook-handler.py`) -/

/-- Model of `DatabaseManager.update_webhook_status` (`webhook-handler.py`
lines 115-125): sets status, `processed_at` and the error message, and does
not touch `retry_count`. -/
def update_webhook_status (e : QueueEntry) (status : String) (err : Option String)
    (now : Int) : QueueEntry :=
  { e with status := status, processed_at := some now, error_message := err }

/-- One retry attempt of `retry_failed_events` (`webhook-handler.py` lines
335-371) on one entry: on success the status update leaves `retry_count`
alone; on a final failure likewise; only a retryable failure runs the explicit
`UPDATE ... SET retry_count = $2, last_retry_at = NOW()`. -/
def webhook_retry_step (max_retries : Int) (now : Int) (outcome : Bool)
    (e : QueueEntry) : QueueEntry :=
  if outcome then update_webhook_status e "completed" none now
  else if e.retry_count + 1 ≥ max_retries then
    update_webhook_status e "failed"
      (some ("Max retries (" ++ toString max_retries ++ ") exceeded")) now
  else
    { e with retry_count := e.retry_count + 1, last_retry_at := some now }

/-! ### Ingress Receiver (`main.py` lines 299-310, 331-365, 398-426) -/

/-- Model of `verify_webhook_signature` (`main.py` lines 299-310): with no
configured secret every signature passes; otherwise the hex HMAC-SHA256 of the
payload, prefixed with `sha256=`, is compared with the header value
(`hmac.compare_digest` is semantically string equality). -/
def verify_webhook_signature (secret : String) (payload : List Nat)
    (signature : String) : Bool :=
  if secret == "" then true
  else ("sha256=" ++ hmacSha256Hex (strBytes secret) payload) == signature

inductive HandlerResponse where
  | accepted : HandlerResponse
  | httpError : Nat → String → HandlerResponse
deriving DecidableEq, Repr

structure HttpExc where
  status : Nat
  detail : String
deriving DecidableEq, Repr

/-- Body of the `try` block of `handle_litellm_webhook` (`main.py` lines
398-426).  A failed signature check raises `HTTPException(401)`; a payload
that does not parse as a `LiteLLMUsageEvent` raises a parse error, modelled
uniformly as a 400 exception; otherwise the event is handed to a background
task and the accepted response is returned. -/
def handle_litellm_webhook_try (secret : String) (body : List Nat)
    (sigHeader : Option String) (parsed : Option LiteLLMUsageEvent) :
    Except HttpExc HandlerResponse :=
  let signature := sigHeader.getD ""
  if ¬ verify_webhook_signature secret body signature then
    Except.error ⟨401, "Invalid webhook signature"⟩
  else
    match parsed with
    | none => Except.error ⟨400, "validation error"⟩
    | some _ => Except.ok HandlerResponse.accepted

/-- Model of `handle_litellm_webhook` including its `except Exception` clause:
every exception raised in the `try` block — the 401 `HTTPException` included —
is caught and re-raised as `HTTPException(status_code=400, detail=str(e))`. -/
def handle_litellm_webhook (secret : String) (body : List Nat)
    (sigHeader : Option String) (parsed : Option LiteLLMUsageEvent) :
    HandlerResponse :=
  match handle_litellm_webhook_try secret body sigHeader parsed with
  | .ok r => r
  | .error exc => .httpError 400 exc.detail

/-- State threaded through the ingress pipeline: the queue table and the next
surrogate row id. -/
structure PipelineState where
  queue : List QueueEntry
  next_id : Nat
deriving DecidableEq, Repr

/-- Model of `DatabaseManager.get_customer_mapping` (`main.py` lines 146-153):
the row with the given source customer id and `is_active = true`, if any. -/
def get_customer_mapping (db : List CustomerMapping) (cid : String) :
    Option CustomerMapping :=
  db.find? (fun m => m.litellm_customer_id == cid && m.is_active)

/-- Model of `DatabaseManager.queue_event` (`main.py` lines 182-197): INSERT
with `status = 'pending'`, returning the new row id. -/
def queue_event (st : PipelineState) (ev : LagoUsageEvent) (cm : CustomerMapping)
    (now : Int) : Nat × PipelineState :=
  (st.next_id,
   { queue := st.queue ++
       [{ id := st.next_id, transaction_id := ev.transaction_id,
          external_customer_id := ev.external_customer_id, event_data := ev,
          customer_mapping_id := cm.litellm_customer_id, status := "pending",
          retry_count := 0, created_at := now, last_retry_at := none,
          processed_at := none, error_message := none }],
     next_id := st.next_id + 1 })

/-- Model of `process_usage_event` (`main.py` lines 331-365): resolve the
mapping (no active mapping means return failure with nothing queued and
nothing sent), transform, enqueue, attempt one inline delivery, and record the
outcome through `update_event_status`. -/
def process_usage_event (db : List CustomerMapping) (ue : LiteLLMUsageEvent)
    (st : PipelineState) (now : Int) (net : List HttpOutcome) :
    Bool × PipelineState × List HttpOutcome :=
  match get_customer_mapping db ue.user with
  | none => (false, st, net)
  | some cm =>
    let lago := convert_to_lago_event ue cm
    let r := queue_event st lago cm now
    let sres := send_usage_event net
    let q :=
      if sres.fst then
        update_event_status_queue r.snd.queue r.fst "completed" none now
      else
        update_event_status_queue r.snd.queue r.fst "failed"
          (some "Failed to send to Lago") now
    (sres.fst, { r.snd with queue := q }, sres.snd)

/-- The whole ingress interaction: the HTTP response is computed first (the
usage event is only handed to a background task), then the background task
runs `process_usage_event`.  Returns the response the caller sees together
with the final pipeline state and network stream. -/
def handle_and_process (db : List CustomerMapping) (secret : String)
    (body : List Nat) (sigHeader : Option String)
    (parsed : Option LiteLLMUsageEvent) (st : PipelineState) (now : Int)
    (net : List HttpOutcome) :
    HandlerResponse × PipelineState × List HttpOutcome :=
  match handle_litellm_webhook secret body sigHeader parsed, parsed with
  | .accepted, some ue =>
    let r := process_usage_event db ue st now net
    (.accepted, r.snd.fst, r.snd.snd)
  | r, _ => (r, st, net)

end Billing

namespace Billing

/-! ### Concrete fixtures used by witnesses and counterexamples -/

def sampleEvent : LiteLLMUsageEvent :=
  { id := "evt1", user := "cust1", model := "gpt-4", prompt_tokens := 10,
    completion_tokens := 5, total_tokens := 15, spend := 0,
    startTime := 1700000000, endTime := 1700000002,
    api_key := none, request_id := none }

def sampleMapping : CustomerMapping :=
  { litellm_customer_id := "cust1", lago_customer_id := "lago1",
    lago_organization_id := "org1", billing_plan := "ai_basic",
    is_active := true }

def sampleLago : LagoUsageEvent :=
  { transaction_id := "t1", external_customer_id := "lago1",
    code := "ai_usage", timestamp := 0, properties := [] }

def pendingEntry : QueueEntry :=
  { id := 1, transaction_id := "t1", external_customer_id := "lago1",
    event_data := sampleLago, customer_mapping_id := "cust1",
    status := "pending", retry_count := 0, created_at := 0,
    last_retry_at := none, processed_at := none, error_message := none }

def completedEntry : QueueEntry :=
  { pendingEntry with id := 2, status := "completed", retry_count := 1,
                      processed_at := some 0 }

def freshFailedEntry : QueueEntry :=
  { pendingEntry with id := 3, status := "failed", retry_count := 0,
                      last_retry_at := some 100 }

def cfg3 : WorkerConfig :=
  { max_retries := 3, retry_delay := 0, batch_size := 100,
    worker_concurrency := 10 }

def emptyState : PipelineState := { queue := [], next_id := 1 }

/-! ### Helper lemmas -/

set_option maxRecDepth 100000 in
/-- The truncated hex SHA-256 of the empty byte string. -/
theorem sha256_empty_sixteen :
    (sha256HexBytes (strBytes "")).take 16 = "e3b0c44298fc1c14" := by
  decide

/-- A string starting with the signature tag is never the empty header. -/
theorem sha256Tag_append_ne (t : String) : ("sha256=" ++ t) ≠ "" := by
  intro h
  have hdata : ("sha256=" ++ t).data = "".data := by rw [h]
  simp [String.data_append] at hdata

/-! ### Claim C1 -/

/-- Claim C1: the Event Transformer is deterministic — records with the same
source event id and start time get the same idempotency key, equal inputs give
an identical event (key and property bag), and the key is the prefix, source
event id and unix start time joined by underscores. -/
theorem convert_to_lago_event_deterministic
    (r r' : LiteLLMUsageEvent) (m m' : CustomerMapping)
    (hid : r.id = r'.id) (ht : r.startTime = r'.startTime)
    (hm : m.lago_customer_id = m'.lago_customer_id) :
    (convert_to_lago_event r m).transaction_id
        = (convert_to_lago_event r' m').transaction_id
    ∧ (convert_to_lago_event r m).transaction_id
        = "litellm_" ++ r.id ++ "_" ++ toString r.startTime
    ∧ (r = r' → convert_to_lago_event r m = convert_to_lago_event r' m') := by
  refine ⟨?_, rfl, ?_⟩
  · simp [convert_to_lago_event, hid, ht]
  · intro hr
    subst hr
    simp [convert_to_lago_event, hm]

/-- Witness for C1 at a concrete record and mapping. -/
theorem convert_to_lago_event_deterministic_witness :
    (convert_to_lago_event sampleEvent sampleMapping).transaction_id
        = (convert_to_lago_event sampleEvent sampleMapping).transaction_id
    ∧ (convert_to_lago_event sampleEvent sampleMapping).transaction_id
        = "litellm_" ++ sampleEvent.id ++ "_" ++ toString sampleEvent.startTime
    ∧ (sampleEvent = sampleEvent →
        convert_to_lago_event sampleEvent sampleMapping
          = convert_to_lago_event sampleEvent sampleMapping) :=
  convert_to_lago_event_deterministic sampleEvent sampleEvent sampleMapping
    sampleMapping rfl rfl rfl

end Billing

namespace Billing

/-! ### Claim C10 -/

/-- Claim C10: a record without a credential still gets an `api_key_hash`
property, equal to the first 16 hex characters of SHA-256 of the empty string
— the fixed constant `e3b0c44298fc1c14`, identical across all credential-less
records — and the bag holds exactly the nine listed values, so no raw
credential appears in it. -/
theorem api_key_hash_constant_when_absent
    (r r' : LiteLLMUsageEvent) (m m' : CustomerMapping)
    (h : r.api_key = none) (h' : r'.api_key = none) :
    lookupProp "api_key_hash" (convert_to_lago_event r m).properties
        = some (.pstr ((sha256HexBytes (strBytes "")).take 16))
    ∧ (sha256HexBytes (strBytes "")).take 16 = "e3b0c44298fc1c14"
    ∧ lookupProp "api_key_hash" (convert_to_lago_event r m).properties
        = lookupProp "api_key_hash" (convert_to_lago_event r' m').properties
    ∧ (convert_to_lago_event r m).properties.map Prod.snd
        = [.pstr r.model, .pint r.prompt_tokens, .pint r.completion_tokens,
           .pint r.total_tokens, .prat r.spend, .pint (r.endTime - r.startTime),
           .pstr r.user, .pstr (r.request_id.getD r.id),
           .pstr ((sha256HexBytes (strBytes "")).take 16)] := by
  refine ⟨?_, sha256_empty_sixteen, ?_, ?_⟩
  · simp [convert_to_lago_event, lookupProp, h]
  · simp [convert_to_lago_event, lookupProp, h, h']
  · simp [convert_to_lago_event, h]

/-- Witness for C10 at a concrete credential-less record. -/
theorem api_key_hash_constant_when_absent_witness :
    lookupProp "api_key_hash" (convert_to_lago_event sampleEvent sampleMapping).properties
        = some (.pstr ((sha256HexBytes (strBytes "")).take 16))
    ∧ (sha256HexBytes (strBytes "")).take 16 = "e3b0c44298fc1c14"
    ∧ lookupProp "api_key_hash" (convert_to_lago_event sampleEvent sampleMapping).properties
        = lookupProp "api_key_hash" (convert_to_lago_event sampleEvent sampleMapping).properties
    ∧ (convert_to_lago_event sampleEvent sampleMapping).properties.map Prod.snd
        = [.pstr sampleEvent.model, .pint sampleEvent.prompt_tokens,
           .pint sampleEvent.completion_tokens, .pint sampleEvent.total_tokens,
           .prat sampleEvent.spend,
           .pint (sampleEvent.endTime - sampleEvent.startTime),
           .pstr sampleEvent.user,
           .pstr (sampleEvent.request_id.getD sampleEvent.id),
           .pstr ((sha256HexBytes (strBytes "")).take 16)] :=
  api_key_hash_constant_when_absent sampleEvent sampleEvent sampleMapping
    sampleMapping rfl rfl

/-! ### Claim C7 -/

/-- Claim C7 counterexample: the status 201 is in the 2xx range, yet the client
reports failure — the code tests `status == 200` only. -/
theorem send_usage_event_201_counterexample :
    (send_usage_event [HttpOutcome.resp 201]).fst = false
    ∧ 200 ≤ 201 ∧ 201 < 300 := by
  decide

/-- Claim C7 (amended): one call to the Billing Client consumes exactly the
first pending outcome, returns Success precisely when that outcome is a
response with status exactly 200, and returns Failure as a value — never an
exception — for any other status or for a transport error; it never retries
internally. -/
theorem send_usage_event_spec (net : List HttpOutcome) :
    ((send_usage_event net).fst = true ↔ net.head? = some (HttpOutcome.resp 200))
    ∧ (send_usage_event net).snd = net.tail := by
  rcases net with _ | ⟨o, rest⟩
  · simp [send_usage_event]
  · rcases o with s | msg <;> simp [send_usage_event]

end Billing

namespace Billing

/-! ### Claim C8 -/

/-- Claim C8: with no configured secret a request without the signature header
is accepted; with a secret configured and the header missing the request is
rejected — but the response status is 400, not the claimed 401: the
`HTTPException(401)` raised inside the `try` block of the route is caught by
its own blanket `except Exception` clause and re-raised as a 400. -/
theorem missing_signature_behavior (secret : String) (hs : secret ≠ "")
    (body : List Nat) (ue : LiteLLMUsageEvent) :
    handle_litellm_webhook "" body none (some ue) = HandlerResponse.accepted
    ∧ handle_litellm_webhook secret body none (some ue)
        = HandlerResponse.httpError 400 "Invalid webhook signature" := by
  constructor
  · simp [handle_litellm_webhook, handle_litellm_webhook_try,
          verify_webhook_signature]
  · have hv : verify_webhook_signature secret body "" = false := by
      simp [verify_webhook_signature, hs, sha256Tag_append_ne]
    simp [handle_litellm_webhook, handle_litellm_webhook_try, hv]

/-- Witness for C8 with the secret set to a concrete value. -/
theorem missing_signature_behavior_witness :
    handle_litellm_webhook "" [] none (some sampleEvent) = HandlerResponse.accepted
    ∧ handle_litellm_webhook "s1" [] none (some sampleEvent)
        = HandlerResponse.httpError 400 "Invalid webhook signature" :=
  missing_signature_behavior "s1" (by decide) [] sampleEvent

/-! ### Claim C9 -/

/-- Claim C9 counterexample: a usage record whose user has no active mapping is
dropped with the queue untouched and nothing sent, yet the webhook caller has
already received the accepted response — the identity failure is not visible
to the caller, contradicting the claim's final clause. -/
theorem identity_failure_counterexample :
    handle_and_process [] "" [] none (some sampleEvent) emptyState 0
        [HttpOutcome.resp 200]
      = (HandlerResponse.accepted, emptyState, [HttpOutcome.resp 200])
    ∧ get_customer_mapping [] sampleEvent.user = none := by
  decide

/-- Claim C9 (amended): a record with no active mapping is rejected without
enqueueing — no QueueEntry is created, no delivery attempt is made, the queue
state is unchanged and `process_usage_event` reports failure to its caller —
but the webhook caller is still told accepted, because identity resolution
runs in a background task after the response is sent. -/
theorem identity_failure_not_enqueued (db : List CustomerMapping)
    (ue : LiteLLMUsageEvent) (st : PipelineState) (now : Int)
    (net : List HttpOutcome) (body : List Nat)
    (h : get_customer_mapping db ue.user = none) :
    process_usage_event db ue st now net = (false, st, net)
    ∧ handle_and_process db "" body none (some ue) st now net
        = (HandlerResponse.accepted, st, net) := by
  have hp : process_usage_event db ue st now net = (false, st, net) := by
    simp [process_usage_event, h]
  refine ⟨hp, ?_⟩
  simp [handle_and_process, handle_litellm_webhook, handle_litellm_webhook_try,
        verify_webhook_signature, hp]

/-- Witness for C9 at a concrete record with an empty mapping table. -/
theorem identity_failure_not_enqueued_witness :
    process_usage_event [] sampleEvent emptyState 0 [HttpOutcome.resp 200]
        = (false, emptyState, [HttpOutcome.resp 200])
    ∧ handle_and_process [] "" [] none (some sampleEvent) emptyState 0
          [HttpOutcome.resp 200]
        = (HandlerResponse.accepted, emptyState, [HttpOutcome.resp 200]) :=
  identity_failure_not_enqueued [] sampleEvent emptyState 0
    [HttpOutcome.resp 200] [] rfl

end Billing

namespace Billing

/-! ### Claim C5 -/

/-- Claim C5 counterexample: marking an already-completed entry completed again
is not a no-op — `update_event_status` unconditionally increments
`retry_count` and overwrites `processed_at`, so the row changes. -/
theorem mark_completed_not_noop_counterexample :
    completedEntry.status = "completed"
    ∧ completedEntry.retry_count = 1
    ∧ (update_event_status completedEntry "completed" none 5).retry_count = 2
    ∧ update_event_status completedEntry "completed" none 5 ≠ completedEntry := by
  decide

/-- Claim C5 (amended): a completed entry keeps its `completed` status under a
repeated markCompleted and is never returned by the due-entry selection, so
the pipeline itself performs no further transition on it; but markCompleted is
not idempotent field-by-field — it increments `retry_count` and overwrites
`processed_at` and `error_message` each time it is called. -/
theorem completed_terminal_amended (max_retries : Int) (q : List QueueEntry)
    (limit : Nat) (e : QueueEntry) (err : Option String) (now : Int)
    (h : e.status = "completed") :
    (update_event_status e "completed" err now).status = "completed"
    ∧ (update_event_status e "completed" err now).retry_count = e.retry_count + 1
    ∧ e ∉ get_pending_events max_retries q limit := by
  refine ⟨rfl, rfl, ?_⟩
  intro hmem
  have h1 : e ∈ (q.filter (pendingOrRetryable max_retries)).insertionSort leCreated :=
    List.take_subset limit _ hmem
  have h2 : e ∈ q.filter (pendingOrRetryable max_retries) :=
    (List.mem_insertionSort leCreated).mp h1
  have h3 : pendingOrRetryable max_retries e = true := (List.mem_filter.mp h2).2
  simp [pendingOrRetryable, h] at h3

/-- Witness for C5 at a concrete completed entry. -/
theorem completed_terminal_amended_witness :
    (update_event_status completedEntry "completed" none 5).status = "completed"
    ∧ (update_event_status completedEntry "completed" none 5).retry_count
        = completedEntry.retry_count + 1
    ∧ completedEntry ∉ get_pending_events 3 [completedEntry, pendingEntry] 10 :=
  completed_terminal_amended 3 [completedEntry, pendingEntry] 10 completedEntry
    none 5 rfl

/-! ### Claim C6 -/

/-- Claim C6 counterexample: in the webhook-handler a successful delivery
attempt updates the entry through `update_webhook_status`, which does not
touch `retry_count` — the attempt increments it by zero, not by exactly one as
claimed. -/
theorem webhook_success_no_increment_counterexample :
    pendingEntry.retry_count = 0
    ∧ (webhook_retry_step 3 5 true pendingEntry).retry_count = 0 := by
  decide

/-- Claim C6 (amended): `retry_count` never decreases on any path; in the
integration service every status update — hence every delivery attempt,
inline or swept — increments it by exactly one, while in the webhook-handler
an attempt increments it by at most one: zero on success or terminal failure,
one on a retryable failure. -/
theorem retry_count_monotonic (e : QueueEntry) (s : String) (err : Option String)
    (now : Int) (o : Bool) (cfg : WorkerConfig) (mr : Int) :
    (update_event_status e s err now).retry_count = e.retry_count + 1
    ∧ (worker_update_event_status e s err now).retry_count = e.retry_count + 1
    ∧ (process_event cfg now o e).retry_count = e.retry_count + 1
    ∧ (update_webhook_status e s err now).retry_count = e.retry_count
    ∧ ((webhook_retry_step mr now o e).retry_count = e.retry_count
       ∨ (webhook_retry_step mr now o e).retry_count = e.retry_count + 1)
    ∧ e.retry_count ≤ (webhook_retry_step mr now o e).retry_count := by
  refine ⟨rfl, rfl, ?_, rfl, ?_, ?_⟩
  · by_cases ho : o <;>
      simp [process_event, worker_update_event_status, ho] <;>
      by_cases hr : e.retry_count ≥ cfg.max_retries <;>
      simp [hr, worker_update_event_status]
  · by_cases ho : o
    · left
      simp [webhook_retry_step, ho, update_webhook_status]
    · by_cases hr : e.retry_count + 1 ≥ mr
      · left
        simp [webhook_retry_step, ho, hr, update_webhook_status]
      · right
        simp [webhook_retry_step, ho, hr]
  · by_cases ho : o
    · simp [webhook_retry_step, ho, update_webhook_status]
    · by_cases hr : e.retry_count + 1 ≥ mr
      · simp [webhook_retry_step, ho, hr, update_webhook_status]
      · simp [webhook_retry_step, ho, hr]

end Billing

namespace Billing

/-! ### Claim C3 -/

/-- Model of the loop body of `process_queued_events` (`main.py` lines
503-523) on one selected row, the attempt outcome given: success completes
the entry; on failure the post-increment count `retry_count + 1` is compared
with `max_retries` — reaching it marks the entry terminally `failed`,
otherwise it goes back to `pending`.  Either way the row is written through
`update_event_status`, which performs the database-side increment. -/
def process_queued_event (max_retries : Int) (now : Int) (outcome : Bool)
    (e : QueueEntry) : QueueEntry :=
  if outcome then update_event_status e "completed" none now
  else if e.retry_count + 1 ≥ max_retries then
    update_event_status e "failed"
      (some ("Max retries (" ++ toString max_retries ++ ") exceeded")) now
  else
    update_event_status e "pending"
      (some ("Retry " ++ toString (e.retry_count + 1) ++ "/" ++ toString max_retries)) now

/-- One cycle of the background task `process_queued_events` (`main.py` lines
494-529): select due rows with `DatabaseManager.get_pending_events`, then
drive each selected row through the loop body with its attempt outcome. -/
def main_processing_cycle (max_retries : Int) (now : Int) (outcomes : List Bool)
    (q : List QueueEntry) (limit : Nat) : List QueueEntry :=
  ((get_pending_events max_retries q limit).zip outcomes).foldl
    (fun acc p =>
      acc.map (fun x =>
        if x.id = p.fst.id then process_queued_event max_retries now p.snd x else x))
    q

/-- Successive delivery attempts on one entry through the executing
dispatcher, outcomes given. -/
def mainAttemptRun (max_retries : Int) (now : Int) (outcomes : List Bool)
    (e : QueueEntry) : QueueEntry :=
  outcomes.foldl (fun x o => process_queued_event max_retries now o x) e

/-- A due singleton queue is selected whole. -/
theorem get_pending_events_singleton (max_retries : Int) (e : QueueEntry)
    (limit : Nat) (hl : 0 < limit)
    (hdue : pendingOrRetryable max_retries e = true) :
    get_pending_events max_retries [e] limit = [e] := by
  unfold get_pending_events
  rw [show List.filter (pendingOrRetryable max_retries) [e] = [e] by simp [hdue]]
  rw [show List.insertionSort leCreated [e] = [e] from rfl]
  exact List.take_of_length_le (by simpa using hl)

/-- A non-due singleton queue is not selected. -/
theorem get_pending_events_singleton_dead (max_retries : Int) (e : QueueEntry)
    (limit : Nat) (hdead : pendingOrRetryable max_retries e = false) :
    get_pending_events max_retries [e] limit = [] := by
  unfold get_pending_events
  rw [show List.filter (pendingOrRetryable max_retries) [e] = [] by simp [hdead]]
  simp

/-- A cycle over a singleton queue whose entry is not due performs no attempt
and changes nothing. -/
theorem main_cycle_singleton_dead (max_retries now : Int) (outcomes : List Bool)
    (e : QueueEntry) (limit : Nat)
    (hdead : pendingOrRetryable max_retries e = false) :
    main_processing_cycle max_retries now outcomes [e] limit = [e] := by
  unfold main_processing_cycle
  rw [get_pending_events_singleton_dead max_retries e limit hdead]
  simp

/-- Claim C3: with `max_retries = 3` and `retry_delay = 0` (which the
executing selection never consults), the dispatcher that actually runs —
`process_queued_events` in `main.py`; the `worker.py` sweep never executes,
see `worker_loop_never_progresses` — keeps a freshly enqueued entry
selectable through its first two failures, and the third recorded failure
makes it terminally dead: `status = failed`, `retry_count = 3`, excluded by
the selection predicate, returned by no further selection; a fourth delivery
attempt never happens — the next cycle selects nothing and leaves the queue
unchanged even though the Billing Client would now succeed. -/
theorem retry_exhaustion_boundary (e : QueueEntry) (now now4 : Int)
    (limit : Nat) (hs : e.status = "pending") (hr : e.retry_count = 0)
    (hl : 0 < limit) :
    get_pending_events 3 [e] limit = [e]
    ∧ get_pending_events 3 [mainAttemptRun 3 now [false] e] limit
        = [mainAttemptRun 3 now [false] e]
    ∧ get_pending_events 3 [mainAttemptRun 3 now [false, false] e] limit
        = [mainAttemptRun 3 now [false, false] e]
    ∧ (mainAttemptRun 3 now [false, false, false] e).status = "failed"
    ∧ (mainAttemptRun 3 now [false, false, false] e).retry_count = 3
    ∧ pendingOrRetryable 3 (mainAttemptRun 3 now [false, false, false] e) = false
    ∧ get_pending_events 3 [mainAttemptRun 3 now [false, false, false] e] limit = []
    ∧ main_processing_cycle 3 now4 [true]
          [mainAttemptRun 3 now [false, false, false] e] limit
        = [mainAttemptRun 3 now [false, false, false] e] := by
  have hstep2 : mainAttemptRun 3 now [false, false] e
      = process_queued_event 3 now false (mainAttemptRun 3 now [false] e) := rfl
  have hstep3 : mainAttemptRun 3 now [false, false, false] e
      = process_queued_event 3 now false (mainAttemptRun 3 now [false, false] e) := rfl
  have s1 : (mainAttemptRun 3 now [false] e).status = "pending"
      ∧ (mainAttemptRun 3 now [false] e).retry_count = 1 := by
    constructor <;> simp [mainAttemptRun, process_queued_event, update_event_status, hr]
  have s2 : (mainAttemptRun 3 now [false, false] e).status = "pending"
      ∧ (mainAttemptRun 3 now [false, false] e).retry_count = 2 := by
    rw [hstep2]
    constructor <;> simp [process_queued_event, update_event_status, s1.2]
  have s3 : (mainAttemptRun 3 now [false, false, false] e).status = "failed"
      ∧ (mainAttemptRun 3 now [false, false, false] e).retry_count = 3 := by
    rw [hstep3]
    constructor <;> simp [process_queued_event, update_event_status, s2.2]
  have hdead : pendingOrRetryable 3 (mainAttemptRun 3 now [false, false, false] e)
      = false := by
    simp [pendingOrRetryable, s3.1, s3.2]
  refine ⟨get_pending_events_singleton 3 e limit hl (by simp [pendingOrRetryable, hs]),
         get_pending_events_singleton 3 _ limit hl (by simp [pendingOrRetryable, s1.1]),
         get_pending_events_singleton 3 _ limit hl (by simp [pendingOrRetryable, s2.1]),
         s3.1, s3.2, hdead,
         get_pending_events_singleton_dead 3 _ limit hdead,
         main_cycle_singleton_dead 3 now4 [true] _ limit hdead⟩

/-- Witness for C3 at the concrete fresh entry. -/
theorem retry_exhaustion_boundary_witness :
    get_pending_events 3 [pendingEntry] 10 = [pendingEntry]
    ∧ get_pending_events 3 [mainAttemptRun 3 0 [false] pendingEntry] 10
        = [mainAttemptRun 3 0 [false] pendingEntry]
    ∧ get_pending_events 3 [mainAttemptRun 3 0 [false, false] pendingEntry] 10
        = [mainAttemptRun 3 0 [false, false] pendingEntry]
    ∧ (mainAttemptRun 3 0 [false, false, false] pendingEntry).status = "failed"
    ∧ (mainAttemptRun 3 0 [false, false, false] pendingEntry).retry_count = 3
    ∧ pendingOrRetryable 3 (mainAttemptRun 3 0 [false, false, false] pendingEntry)
        = false
    ∧ get_pending_events 3 [mainAttemptRun 3 0 [false, false, false] pendingEntry] 10
        = []
    ∧ main_processing_cycle 3 0 [true]
          [mainAttemptRun 3 0 [false, false, false] pendingEntry] 10
        = [mainAttemptRun 3 0 [false, false, false] pendingEntry] :=
  retry_exhaustion_boundary pendingEntry 0 0 10 rfl rfl (by decide)

end Billing

namespace Billing

/-! ### Claim C4 -/

/-- Selection predicate exactly as the claim words it, retry-delay window
included (spec side, for comparison with the code's WHERE clause). -/
abbrev specDue (max_retries retry_delay now : Int) (e : QueueEntry) : Prop :=
  e.status = "pending" ∨
    (e.status = "failed" ∧ e.retry_count < max_retries ∧
     now - (e.last_retry_at.getD now) ≥ retry_delay)

/-- Claim C4 counterexample: a failed entry attempted this instant (elapsed
time 0, retry delay 60) is returned by `get_pending_events` even though the
claim's predicate excludes it — the implemented query has no delay window. -/
theorem selectDue_delay_counterexample :
    freshFailedEntry ∈ get_pending_events 3 [freshFailedEntry] 10
    ∧ ¬ specDue 3 60 100 freshFailedEntry := by
  decide

/-- Claim C4 (amended): `get_pending_events` returns exactly the entries whose
status is pending, or failed with `retry_count < max_retries` — with no
retry-delay condition — ordered by `created_at` ascending and bounded by the
limit; completed entries and failed entries with exhausted retries are never
returned, and every due entry is returned whenever all due entries fit within
the limit. -/
theorem get_pending_events_spec (max_retries : Int) (q : List QueueEntry)
    (limit : Nat) (e x : QueueEntry)
    (he : e ∈ get_pending_events max_retries q limit)
    (hx : x ∈ q) (hxdue : pendingOrRetryable max_retries x = true)
    (hfit : (q.filter (pendingOrRetryable max_retries)).length ≤ limit) :
    (e.status = "pending" ∨ (e.status = "failed" ∧ e.retry_count < max_retries))
    ∧ e.status ≠ "completed"
    ∧ ¬ (e.status = "failed" ∧ max_retries ≤ e.retry_count)
    ∧ (get_pending_events max_retries q limit).Pairwise leCreated
    ∧ (get_pending_events max_retries q limit).length ≤ limit
    ∧ x ∈ get_pending_events max_retries q limit := by
  have hmem : e ∈ q.filter (pendingOrRetryable max_retries) :=
    (List.mem_insertionSort leCreated).mp (List.take_subset limit _ he)
  have hdue : pendingOrRetryable max_retries e = true := (List.mem_filter.mp hmem).2
  have hd : e.status = "pending" ∨
      (e.status = "failed" ∧ e.retry_count < max_retries) := by
    simpa [pendingOrRetryable, Bool.or_eq_true, Bool.and_eq_true, beq_iff_eq,
           decide_eq_true_eq] using hdue
  refine ⟨hd, ?_, ?_, ?_, List.length_take_le _ _, ?_⟩
  · rcases hd with h1 | ⟨h1, _⟩ <;> simp [h1]
  · rintro ⟨hf, hge⟩
    rcases hd with h1 | ⟨_, hlt⟩
    · rw [h1] at hf
      simp at hf
    · omega
  · exact (List.sorted_insertionSort leCreated _).sublist (List.take_sublist _ _)
  · have hxf : x ∈ q.filter (pendingOrRetryable max_retries) :=
      List.mem_filter.mpr ⟨hx, hxdue⟩
    have hlen :
        ((q.filter (pendingOrRetryable max_retries)).insertionSort leCreated).length
          ≤ limit := by
      rw [(List.perm_insertionSort leCreated _).length_eq]
      exact hfit
    have hxs : x ∈ (q.filter (pendingOrRetryable max_retries)).insertionSort leCreated :=
      (List.mem_insertionSort leCreated).mpr hxf
    unfold get_pending_events
    rw [List.take_of_length_le hlen]
    exact hxs

/-- Witness for C4 on a concrete two-entry queue. -/
theorem get_pending_events_spec_witness :
    (pendingEntry.status = "pending" ∨
      (pendingEntry.status = "failed" ∧ pendingEntry.retry_count < 3))
    ∧ pendingEntry.status ≠ "completed"
    ∧ ¬ (pendingEntry.status = "failed" ∧ 3 ≤ pendingEntry.retry_count)
    ∧ (get_pending_events 3 [pendingEntry, freshFailedEntry] 10).Pairwise leCreated
    ∧ (get_pending_events 3 [pendingEntry, freshFailedEntry] 10).length ≤ 10
    ∧ freshFailedEntry ∈ get_pending_events 3 [pendingEntry, freshFailedEntry] 10 :=
  get_pending_events_spec 3 [pendingEntry, freshFailedEntry] 10 pendingEntry
    freshFailedEntry (by decide) (by decide) (by decide) (by decide)

end Billing

namespace Billing

/-! ### Claim C2 -/

/-- The worker SELECT text contains exactly the placeholders `$1` and `$2`. -/
theorem workerPendingQuery_two_params : numParams workerPendingQuery = 2 := by
  decide

/-- Claim C2 (code bug): every fetch of due events in the worker fails —
`EventProcessor.get_pending_events` binds three arguments (`max_retries`,
`retry_delay`, the limit) to a query with only two placeholders, the
retry-delay interval having been left as the literal `%s seconds` — so
`run_processing_loop` catches the error each cycle and the table never
changes: an accepted entry under `max_retries` never reaches `completed` or
the dead state, contradicting the claim's eventual-termination part. -/
theorem worker_loop_never_progresses (cfg : WorkerConfig) (now : Int)
    (outcomes : List Bool) (q : List QueueEntry) (n : Nat) :
    worker_get_pending_events cfg now q cfg.batch_size
        = Except.error "argument count does not match query placeholders"
    ∧ (fun s => run_processing_cycle cfg now outcomes s)^[n] q = q := by
  have herr : ∀ s : List QueueEntry,
      worker_get_pending_events cfg now s cfg.batch_size
        = Except.error "argument count does not match query placeholders" := by
    intro s
    simp [worker_get_pending_events, fetchBound, workerPendingQuery_two_params]
  refine ⟨herr q, ?_⟩
  induction n with
  | zero => rfl
  | succ k ih =>
    rw [Function.iterate_succ_apply', ih]
    simp [run_processing_cycle, herr q]

end Billing
